import Mathlib

/-!
Shallow embedding of `app.py` (Sistema_Facturacion): an in-memory
invoicing backend.  Monetary amounts are modelled as exact rationals;
Python's `round(x, 2)` (round-half-to-even on the value) is modelled by
`round2`.  Timestamps are modelled as integer seconds; `datetime.now()`
becomes an explicit `now` parameter, and the random CAE an explicit
`cae` parameter.
-/

namespace SistemaFacturacion

/-- A line item as consumed by `calcular_totales`: the dictionary keys
`cantidad` (quantity) and `precioUnitario` (unit price). -/
structure Item where
  cantidad : ℚ
  precioUnitario : ℚ
deriving DecidableEq, Repr

/-- An entry of the request's `items` list.  `good` is a dictionary with
both numeric keys present; `bad` is a malformed entry (missing key or
non-numeric value) on which `calcular_totales` would raise, sending the
handler into its `except` branch. -/
inductive ItemVal where
  | good : Item → ItemVal
  | bad : ItemVal
deriving DecidableEq, Repr

/-- Reading all entries of the `items` list; `none` when some entry is
malformed (the Python code raises on the first such entry, and the sum
produces no value at all). -/
def extractItems : List ItemVal → Option (List Item)
  | [] => some []
  | .good it :: rest => (extractItems rest).map (fun l => it :: l)
  | .bad :: _ => none

/-- Round-half-to-even to an integer, the rounding CPython's `round`
applies to the (exact) value of its argument. -/
def rndHalfEven (x : ℚ) : ℤ :=
  if x - ⌊x⌋ < 1/2 then ⌊x⌋
  else if 1/2 < x - ⌊x⌋ then ⌊x⌋ + 1
  else if ⌊x⌋ % 2 = 0 then ⌊x⌋ else ⌊x⌋ + 1

/-- Python's `round(x, 2)`: round-half-to-even at two decimal places.
Exact for arguments exactly representable as binary floats. -/
def round2 (x : ℚ) : ℚ := (rndHalfEven (x * 100) : ℚ) / 100

/-- The result dictionary of `calcular_totales`. -/
structure Totales where
  subtotal : ℚ
  iva : ℚ
  total : ℚ
deriving DecidableEq, Repr

/-- The raw subtotal `sum(item['cantidad'] * item['precioUnitario'] for item in items)`. -/
def itemsSubtotal (items : List Item) : ℚ :=
  (items.map (fun it => it.cantidad * it.precioUnitario)).sum

/-- `calcular_totales(items, tipo)` from `app.py`: series A discriminates
the 21% IVA; any other series (B) reports the tax-inclusive total as
subtotal and a zero IVA. -/
def calcular_totales (items : List Item) (tipo : String) : Totales :=
  let importe_iva : ℚ := 21/100
  let subtotal := itemsSubtotal items
  if tipo = "A" then
    let iva := subtotal * importe_iva
    let total := subtotal + iva
    { subtotal := round2 subtotal, iva := round2 iva, total := round2 total }
  else
    let total := subtotal + subtotal * importe_iva
    let subtotal_neto := total
    let iva := total - subtotal_neto
    { subtotal := round2 subtotal_neto, iva := round2 iva, total := round2 total }

/-- Python's `str.zfill`: left-pad with zeros to `width`, keeping a
leading sign in front of the padding. -/
def zfill (s : String) (width : ℕ) : String :=
  if width ≤ s.length then s
  else
    let pad := List.replicate (width - s.length) '0'
    match s.data with
    | [] => String.mk pad
    | c :: rest =>
      if c = '-' ∨ c = '+' then String.mk (c :: (pad ++ rest))
      else String.mk (pad ++ (c :: rest))

/-- The module-level `contadores = {'A': 1, 'B': 1}` dictionary. -/
structure Contadores where
  A : ℕ
  B : ℕ
deriving DecidableEq, Repr

/-- `generar_numero_factura(tipo, punto_venta)`: formats
`str(punto_venta).zfill(5) + "-" + str(numero).zfill(8)` from the current
counter of `tipo` and increments that counter.  `none` models the
`KeyError` raised when `tipo` is not a key of `contadores`. -/
def generar_numero_factura (tipo : String) (punto_venta : ℤ) (c : Contadores) :
    Option (String × Contadores) :=
  if tipo = "A" then
    some (zfill (toString punto_venta) 5 ++ "-" ++ zfill (toString c.A) 8,
          { c with A := c.A + 1 })
  else if tipo = "B" then
    some (zfill (toString punto_venta) 5 ++ "-" ++ zfill (toString c.B) 8,
          { c with B := c.B + 1 })
  else none

/-- A stored invoice record (the `factura` dictionary). -/
structure Factura where
  id : ℕ
  tipo : String
  numero : String
  puntoVenta : ℤ
  cae : String
  fechaEmision : ℤ
  fechaVencimientoCAE : ℤ
  cliente : String
  items : List ItemVal
  subtotal : ℚ
  iva : ℚ
  total : ℚ
  estado : String
deriving DecidableEq, Repr

/-- The mutable module state: the `facturas` list and the `contadores`
dictionary. -/
structure Ledger where
  facturas : List Factura
  contadores : Contadores
deriving DecidableEq, Repr

/-- The state at process start: `facturas = []`, `contadores = {'A': 1, 'B': 1}`. -/
def initialLedger : Ledger := { facturas := [], contadores := { A := 1, B := 1 } }

/-- The fixed registry `puntos_venta = [1, 2, 3, 4, 5]`. -/
def puntos_venta : List ℤ := [1, 2, 3, 4, 5]

/-- `timedelta(days=10)` in seconds. -/
def DIEZ_DIAS : ℤ := 10 * 86400

/-- The JSON body of a creation request, after `data.get(...)`. -/
structure RequestData where
  tipo : String
  puntoVenta : ℤ
  cliente : String
  items : Option (List ItemVal)
deriving DecidableEq, Repr

/-- Outcome of `crear_factura`: HTTP 201 with the invoice, or an HTTP
status (400 validation, 500 internal) with an error message. -/
inductive CrearResult where
  | ok : Factura → CrearResult
  | err : ℕ → String → CrearResult
deriving DecidableEq, Repr

/-- HTTP status of a creation outcome (201 on success). -/
def statusOf : CrearResult → ℕ
  | .ok _ => 201
  | .err code _ => code

/-- `crear_factura` from `app.py`: validates type, point of sale and
items in that order, then computes totals, builds the invoice (consuming
a sequence number), appends it and returns it.  A malformed item (or an
impossible `KeyError` in the number generator) lands in the `except`
branch: HTTP 500, state untouched.  The exception text interpolated into
the 500 message is abstracted away. -/
def crear_factura (st : Ledger) (data : RequestData) (now : ℤ) (cae : String) :
    CrearResult × Ledger :=
  if data.tipo ∉ ["A", "B"] then
    (.err 400 "Tipo de factura inválido. Debe ser A o B", st)
  else if data.puntoVenta ∉ puntos_venta then
    (.err 400 "Punto de venta inválido", st)
  else
    match data.items with
    | none => (.err 400 "Debe incluir al menos un item", st)
    | some l =>
      if l.length = 0 then
        (.err 400 "Debe incluir al menos un item", st)
      else
        match extractItems l with
        | none => (.err 500 "Error al procesar la factura", st)
        | some its =>
          let totales := calcular_totales its data.tipo
          match generar_numero_factura data.tipo data.puntoVenta st.contadores with
          | none => (.err 500 "Error al procesar la factura", st)
          | some (numero, contadores') =>
            let factura : Factura :=
              { id := st.facturas.length + 1
                tipo := data.tipo
                numero := numero
                puntoVenta := data.puntoVenta
                cae := cae
                fechaEmision := now
                fechaVencimientoCAE := now + DIEZ_DIAS
                cliente := data.cliente
                items := l
                subtotal := totales.subtotal
                iva := totales.iva
                total := totales.total
                estado := "Autorizada" }
            (.ok factura, { facturas := st.facturas ++ [factura], contadores := contadores' })

/-- The JSON body returned by `verificar_cae` (the not-found body has no
`factura` key, modelled as `none`). -/
structure VerificarResp where
  valido : Bool
  factura : Option Factura
  mensaje : String
deriving DecidableEq, Repr

/-- `verificar_cae(cae)` from `app.py`: linear scan for the first invoice
with that CAE; validity compares `now` to the stored expiry. -/
def verificar_cae (st : Ledger) (cae : String) (now : ℤ) : VerificarResp :=
  match st.facturas.find? (fun f => f.cae == cae) with
  | none => { valido := false, factura := none, mensaje := "CAE no encontrado" }
  | some factura =>
    let vencido : Bool := decide (factura.fechaVencimientoCAE < now)
    { valido := !vencido
      factura := some factura
      mensaje := if vencido then "CAE vencido" else "CAE válido" }

/-- The JSON body returned by `obtener_estadisticas`. -/
structure Estadisticas where
  totalFacturas : ℕ
  facturasA : ℕ
  facturasB : ℕ
  totalFacturado : ℚ
deriving DecidableEq, Repr

/-- `obtener_estadisticas` from `app.py`. -/
def obtener_estadisticas (st : Ledger) : Estadisticas :=
  let total_facturado := (st.facturas.map (fun f => f.total)).sum
  { totalFacturas := st.facturas.length
    facturasA := (st.facturas.filter (fun f => f.tipo == "A")).length
    facturasB := (st.facturas.filter (fun f => f.tipo == "B")).length
    totalFacturado := round2 total_facturado }

/-- Whether a creation outcome is the 201 success. -/
def isOk : CrearResult → Bool
  | .ok _ => true
  | .err _ _ => false

/-- Run a sequence of creation requests (each with its wall-clock time
and generated CAE) against the ledger. -/
def runRequests (st : Ledger) : List (RequestData × ℤ × String) → Ledger
  | [] => st
  | (d, now, cae) :: rest => runRequests (crear_factura st d now cae).2 rest

/-- All requests of the sequence succeed when run in order. -/
def allOk (st : Ledger) : List (RequestData × ℤ × String) → Bool
  | [] => true
  | (d, now, cae) :: rest =>
    isOk (crear_factura st d now cae).1 && allOk (crear_factura st d now cae).2 rest

/-- The rounding the spec claims for `calcular_totales`: standard
round-half-up at two decimal places.  Stated from the spec's words, to be
compared with the source's `round2`. -/
def specRoundHalfUp2 (x : ℚ) : ℚ := (⌊x * 100 + 1/2⌋ : ℚ) / 100

end SistemaFacturacion

namespace SistemaFacturacion

/-! ## Helper lemmas about rounding -/

lemma floor_le_rndHalfEven (x : ℚ) : ⌊x⌋ ≤ rndHalfEven x := by
  unfold rndHalfEven
  split_ifs <;> omega

lemma rndHalfEven_le_floor_add_one (x : ℚ) : rndHalfEven x ≤ ⌊x⌋ + 1 := by
  unfold rndHalfEven
  split_ifs <;> omega

lemma rndHalfEven_mono : Monotone rndHalfEven := by
  intro x y h
  rcases lt_or_le ⌊x⌋ ⌊y⌋ with hf | hf
  · have h1 := rndHalfEven_le_floor_add_one x
    have h2 := floor_le_rndHalfEven y
    omega
  · have hfe : ⌊x⌋ = ⌊y⌋ := le_antisymm (Int.floor_mono h) hf
    have hr : x - (⌊y⌋ : ℚ) ≤ y - (⌊y⌋ : ℚ) := by linarith
    unfold rndHalfEven
    rw [hfe]
    split_ifs <;> first | omega | linarith

lemma round2_mono {x y : ℚ} (h : x ≤ y) : round2 x ≤ round2 y := by
  unfold round2
  have h1 : rndHalfEven (x * 100) ≤ rndHalfEven (y * 100) :=
    rndHalfEven_mono (by linarith)
  have h2 : ((rndHalfEven (x * 100) : ℤ) : ℚ) ≤ ((rndHalfEven (y * 100) : ℤ) : ℚ) := by
    exact_mod_cast h1
  linarith

lemma rndHalfEven_zero : rndHalfEven 0 = 0 := by
  unfold rndHalfEven
  norm_num

lemma round2_zero : round2 0 = 0 := by
  unfold round2
  norm_num [rndHalfEven_zero]

/-! ## Helper lemmas about `calcular_totales` -/

lemma calcular_totales_A (items : List Item) :
    calcular_totales items "A" =
      { subtotal := round2 (itemsSubtotal items)
        iva := round2 (itemsSubtotal items * (21/100))
        total := round2 (itemsSubtotal items + itemsSubtotal items * (21/100)) } := by
  simp [calcular_totales]

lemma calcular_totales_not_A (items : List Item) (tipo : String) (h : tipo ≠ "A") :
    calcular_totales items tipo =
      { subtotal := round2 (itemsSubtotal items + itemsSubtotal items * (21/100))
        iva := 0
        total := round2 (itemsSubtotal items + itemsSubtotal items * (21/100)) } := by
  simp only [calcular_totales, if_neg h]
  rw [sub_self, round2_zero]

lemma itemsSubtotal_nonneg (items : List Item)
    (h : ∀ it ∈ items, 0 ≤ it.cantidad ∧ 0 ≤ it.precioUnitario) :
    0 ≤ itemsSubtotal items := by
  unfold itemsSubtotal
  apply List.sum_nonneg
  intro q hq
  simp only [List.mem_map] at hq
  obtain ⟨it, hit, rfl⟩ := hq
  exact mul_nonneg (h it hit).1 (h it hit).2

end SistemaFacturacion

namespace SistemaFacturacion

lemma crear_factura_ok_spec {st : Ledger} {data : RequestData} {now : ℤ} {cae : String}
    {f : Factura} {st' : Ledger}
    (h : crear_factura st data now cae = (.ok f, st')) :
    (data.tipo = "A" ∨ data.tipo = "B") ∧
    data.puntoVenta ∈ puntos_venta ∧
    (∃ l its, data.items = some l ∧ l ≠ [] ∧ extractItems l = some its ∧
      f.items = l ∧
      f.subtotal = (calcular_totales its data.tipo).subtotal ∧
      f.iva = (calcular_totales its data.tipo).iva ∧
      f.total = (calcular_totales its data.tipo).total) ∧
    f.id = st.facturas.length + 1 ∧
    f.tipo = data.tipo ∧
    f.puntoVenta = data.puntoVenta ∧
    f.cae = cae ∧
    f.fechaEmision = now ∧
    f.fechaVencimientoCAE = now + DIEZ_DIAS ∧
    f.cliente = data.cliente ∧
    f.estado = "Autorizada" ∧
    st'.facturas = st.facturas ++ [f] ∧
    ((data.tipo = "A" ∧
        f.numero = zfill (toString data.puntoVenta) 5 ++ "-" ++ zfill (toString st.contadores.A) 8 ∧
        st'.contadores = { A := st.contadores.A + 1, B := st.contadores.B }) ∨
     (data.tipo = "B" ∧
        f.numero = zfill (toString data.puntoVenta) 5 ++ "-" ++ zfill (toString st.contadores.B) 8 ∧
        st'.contadores = { A := st.contadores.A, B := st.contadores.B + 1 })) := by
  unfold crear_factura at h
  split at h
  · simp at h
  rename_i h1
  split at h
  · simp at h
  rename_i h2
  split at h
  · simp at h
  rename_i l hitems
  split at h
  · simp at h
  rename_i h4
  split at h
  · simp at h
  rename_i its hext
  split at h
  · simp at h
  rename_i numero contadores' hgen
  rw [Prod.mk.injEq] at h
  obtain ⟨hf, hst⟩ := h
  injection hf with hf
  subst hf
  subst hst
  rw [not_not] at h1 h2
  simp only [List.mem_cons, List.mem_singleton, List.not_mem_nil, or_false] at h1
  have hne : l ≠ [] := by
    intro he
    exact h4 (by simp [he])
  refine ⟨h1, h2, ⟨l, its, hitems, hne, hext, rfl, rfl, rfl, rfl⟩,
    rfl, rfl, rfl, rfl, rfl, rfl, rfl, rfl, rfl, ?_⟩
  unfold generar_numero_factura at hgen
  rcases h1 with hA | hB
  · rw [if_pos hA] at hgen
    rw [Option.some.injEq, Prod.mk.injEq] at hgen
    exact Or.inl ⟨hA, hgen.1.symm, hgen.2.symm⟩
  · by_cases hA : data.tipo = "A"
    · rw [if_pos hA] at hgen
      rw [Option.some.injEq, Prod.mk.injEq] at hgen
      exact Or.inl ⟨hA, hgen.1.symm, hgen.2.symm⟩
    · rw [if_neg hA, if_pos hB] at hgen
      rw [Option.some.injEq, Prod.mk.injEq] at hgen
      exact Or.inr ⟨hB, hgen.1.symm, hgen.2.symm⟩

lemma crear_factura_isOk {st : Ledger} {data : RequestData} {now : ℤ} {cae : String}
    {l : List ItemVal} {its : List Item}
    (hAB : data.tipo = "A" ∨ data.tipo = "B")
    (hpv : data.puntoVenta ∈ puntos_venta)
    (hitems : data.items = some l)
    (hne : l ≠ [])
    (hext : extractItems l = some its) :
    isOk (crear_factura st data now cae).1 = true := by
  unfold crear_factura
  rcases hAB with h | h <;>
    simp [h, hpv, hitems, hne, hext, generar_numero_factura, isOk, List.length_eq_zero]

end SistemaFacturacion

namespace SistemaFacturacion

/-- `isOk` outcomes are exactly the 201 successes. -/
lemma isOk_iff_exists {r : CrearResult} : isOk r = true ↔ ∃ f, r = .ok f := by
  cases r <;> simp [isOk]

/-- A result pair is its own pairing (structure eta), in the form needed
to feed projection facts into the pair-equation lemmas. -/
lemma crear_factura_pair (st : Ledger) (data : RequestData) (now : ℤ) (cae : String)
    {f : Factura} (h : (crear_factura st data now cae).1 = .ok f) :
    crear_factura st data now cae = (.ok f, (crear_factura st data now cae).2) := by
  rw [← h]

/-! ## Claims -/

/-- C1 counterexample: the spec claims the three fields are rounded with
standard half-up rounding, but on the single item `{qty: 1, price: 0.125}`
(price exactly representable in binary, so the Python float computation is
exact) the code stores subtotal `0.12` while half-up rounding of the sum
`1 × 0.125` gives `0.13`: Python's `round` rounds half to even. -/
theorem C1_halfup_counterexample :
    (calcular_totales [{ cantidad := 1, precioUnitario := 1/8 }] "A").subtotal ≠
      specRoundHalfUp2 (1 * (1/8)) := by
  norm_num [calcular_totales, itemsSubtotal, round2, rndHalfEven, specRoundHalfUp2]

/-- C1 (amended): for every series-A computation, the calculator returns
subtotal = Σ quantity×price, tax = subtotal × 0.21 and
total = subtotal + tax, each rounded to 2 decimals with round-half-to-even
(Python `round`); in particular items `[{qty: 2, price: 100}]` give
subtotal 200, tax 42, total 242. -/
theorem C1_series_A_totals (items : List Item) :
    calcular_totales items "A" =
      { subtotal := round2 (itemsSubtotal items)
        iva := round2 (itemsSubtotal items * (21/100))
        total := round2 (itemsSubtotal items + itemsSubtotal items * (21/100)) } ∧
    calcular_totales [{ cantidad := 2, precioUnitario := 100 }] "A" =
      { subtotal := 200, iva := 42, total := 242 } := by
  refine ⟨calcular_totales_A items, ?_⟩
  norm_num [calcular_totales, itemsSubtotal, round2, rndHalfEven]

/-- C2: for every series-B computation the total is
(Σ quantity×price) × 1.21 rounded to 2 decimals, the reported subtotal
equals the total, and the tax is 0; for `[{qty: 1, price: 121}]` the
total is 146.41. -/
theorem C2_series_B_totals (items : List Item) :
    (calcular_totales items "B").total = round2 (itemsSubtotal items * (121/100)) ∧
    (calcular_totales items "B").subtotal = (calcular_totales items "B").total ∧
    (calcular_totales items "B").iva = 0 ∧
    (calcular_totales [{ cantidad := 1, precioUnitario := 121 }] "B").total = 14641/100 := by
  have h := calcular_totales_not_A items "B" (by decide)
  refine ⟨?_, ?_, ?_, ?_⟩
  · rw [h]
    show round2 _ = _
    congr 1
    ring
  · rw [h]
  · rw [h]
  · norm_num +decide [calcular_totales, itemsSubtotal, round2, rndHalfEven]

/-- C3 counterexample: on the non-negative single item
`{qty: 1, price: 0.014}` the series-A stored fields are subtotal 0.01,
tax 0.00, total 0.02 (as in Python: `round(0.014, 2) = 0.01`,
`round(0.00294, 2) = 0.0`, `round(0.01694, 2) = 0.02`), so stored
total ≠ stored subtotal + stored tax. -/
theorem C3_rounded_sum_counterexample :
    ¬ ((calcular_totales [{ cantidad := 1, precioUnitario := 14/1000 }] "A").total =
        (calcular_totales [{ cantidad := 1, precioUnitario := 14/1000 }] "A").subtotal +
        (calcular_totales [{ cantidad := 1, precioUnitario := 14/1000 }] "A").iva) := by
  norm_num [calcular_totales, itemsSubtotal, round2, rndHalfEven]

/-- C3 (amended): on the stored rounded fields, total = subtotal + tax
holds for series B (tax is 0 and subtotal equals total by construction),
and for series A with non-negative quantities and prices total ≥ subtotal
holds; the series-A stored equality total = subtotal + tax can fail
because the three fields are rounded independently. -/
theorem C3_stored_field_relations :
    (∀ items : List Item,
      (calcular_totales items "B").total =
        (calcular_totales items "B").subtotal + (calcular_totales items "B").iva) ∧
    (∀ items : List Item,
      (∀ it ∈ items, 0 ≤ it.cantidad ∧ 0 ≤ it.precioUnitario) →
      (calcular_totales items "A").subtotal ≤ (calcular_totales items "A").total) := by
  constructor
  · intro items
    rw [calcular_totales_not_A items "B" (by decide)]
    simp
  · intro items h
    rw [calcular_totales_A items]
    have hS : 0 ≤ itemsSubtotal items := itemsSubtotal_nonneg items h
    apply round2_mono
    nlinarith

/-- C3 witness: the series-A inequality at the concrete non-negative
item list `[{qty: 2, price: 100}]`. -/
theorem C3_stored_field_relations_witness :
    (∀ it ∈ [({ cantidad := 2, precioUnitario := 100 } : Item)],
        0 ≤ it.cantidad ∧ 0 ≤ it.precioUnitario) ∧
    (calcular_totales [{ cantidad := 2, precioUnitario := 100 }] "A").subtotal ≤
      (calcular_totales [{ cantidad := 2, precioUnitario := 100 }] "A").total := by
  refine ⟨?_, C3_stored_field_relations.2 _ ?_⟩ <;> norm_num

end SistemaFacturacion

namespace SistemaFacturacion

/-! ## Helper lemmas about `crear_factura` -/

lemma crear_factura_err_state {st : Ledger} {data : RequestData} {now : ℤ} {cae : String}
    {code : ℕ} {msg : String} {st' : Ledger}
    (h : crear_factura st data now cae = (.err code msg, st')) : st' = st := by
  unfold crear_factura at h
  split at h
  · exact (Prod.mk.injEq _ _ _ _ ▸ h).2.symm
  · split at h
    · exact (Prod.mk.injEq _ _ _ _ ▸ h).2.symm
    · split at h
      · exact (Prod.mk.injEq _ _ _ _ ▸ h).2.symm
      · split at h
        · exact (Prod.mk.injEq _ _ _ _ ▸ h).2.symm
        · split at h
          · exact (Prod.mk.injEq _ _ _ _ ▸ h).2.symm
          · split at h
            · exact (Prod.mk.injEq _ _ _ _ ▸ h).2.symm
            · simp at h

end SistemaFacturacion

namespace SistemaFacturacion

/-- C4: creation validates in the fixed order type, point of sale, items;
the first failing check determines the 400 result and its message. -/
theorem C4_validation_order (st : Ledger) (data : RequestData) (now : ℤ) (cae : String) :
    (data.tipo ∉ ["A", "B"] →
      crear_factura st data now cae =
        (.err 400 "Tipo de factura inválido. Debe ser A o B", st)) ∧
    (data.tipo ∈ ["A", "B"] → data.puntoVenta ∉ puntos_venta →
      crear_factura st data now cae = (.err 400 "Punto de venta inválido", st)) ∧
    (data.tipo ∈ ["A", "B"] → data.puntoVenta ∈ puntos_venta →
      (data.items = none ∨ data.items = some []) →
      crear_factura st data now cae = (.err 400 "Debe incluir al menos un item", st)) := by
  refine ⟨?_, ?_, ?_⟩
  · intro h1
    unfold crear_factura
    rw [if_pos h1]
  · intro h1 h2
    unfold crear_factura
    rw [if_neg (not_not.mpr h1), if_pos h2]
  · intro h1 h2 h3
    unfold crear_factura
    rw [if_neg (not_not.mpr h1), if_neg (not_not.mpr h2)]
    rcases h3 with h3 | h3 <;> rw [h3]
    simp

/-- C4 witness: the three validation failures at concrete requests: type
`"C"`, then type `"A"` with point of sale 9, then point of sale 1 with
`items` missing and with `items` empty. -/
theorem C4_validation_order_witness :
    crear_factura initialLedger { tipo := "C", puntoVenta := 9, cliente := "c", items := none }
        0 "11111111111111" =
      (.err 400 "Tipo de factura inválido. Debe ser A o B", initialLedger) ∧
    crear_factura initialLedger { tipo := "A", puntoVenta := 9, cliente := "c", items := none }
        0 "11111111111111" =
      (.err 400 "Punto de venta inválido", initialLedger) ∧
    crear_factura initialLedger { tipo := "A", puntoVenta := 1, cliente := "c", items := none }
        0 "11111111111111" =
      (.err 400 "Debe incluir al menos un item", initialLedger) ∧
    crear_factura initialLedger { tipo := "B", puntoVenta := 1, cliente := "c", items := some [] }
        0 "11111111111111" =
      (.err 400 "Debe incluir al menos un item", initialLedger) :=
  ⟨(C4_validation_order _ _ _ _).1 (by decide),
   (C4_validation_order _ _ _ _).2.1 (by decide) (by decide),
   (C4_validation_order _ _ _ _).2.2 (by decide) (by decide) (Or.inl rfl),
   (C4_validation_order _ _ _ _).2.2 (by decide) (by decide) (Or.inr rfl)⟩

/-- C5: a creation that does not return success leaves the ledger and the
counters exactly as they were: every 400/500 outcome returns the state
unchanged (no invoice appended, no id consumed, no counter moved). -/
theorem C5_failure_leaves_state_unchanged (st : Ledger) (data : RequestData) (now : ℤ)
    (cae : String) (code : ℕ) (msg : String) (st' : Ledger)
    (h : crear_factura st data now cae = (.err code msg, st')) : st' = st :=
  crear_factura_err_state h

/-- C5 witness: rejecting type `"C"` leaves the initial ledger unchanged. -/
theorem C5_failure_leaves_state_unchanged_witness :
    crear_factura initialLedger
        { tipo := "C", puntoVenta := 1, cliente := "c",
          items := some [.good { cantidad := 1, precioUnitario := 1 }] } 0 "11111111111111" =
      (.err 400 "Tipo de factura inválido. Debe ser A o B", initialLedger) ∧
    initialLedger = initialLedger :=
  ⟨by decide, C5_failure_leaves_state_unchanged initialLedger
      { tipo := "C", puntoVenta := 1, cliente := "c",
        items := some [.good { cantidad := 1, precioUnitario := 1 }] } 0 "11111111111111" 400
      "Tipo de factura inválido. Debe ser A o B" initialLedger (by decide)⟩

end SistemaFacturacion

namespace SistemaFacturacion

/-- C6: the id assigned on success is the current invoice count plus 1
(so 1 from the initial state), consecutive successful creations return
ids increasing by exactly 1, and under the count-bound invariant an
assigned id never collides with a stored one. -/
theorem C6_ids_increment_by_one :
    (∀ st data now cae f st', crear_factura st data now cae = (.ok f, st') →
        f.id = st.facturas.length + 1 ∧ st'.facturas = st.facturas ++ [f]) ∧
    (∀ data now cae f st', crear_factura initialLedger data now cae = (.ok f, st') →
        f.id = 1) ∧
    (∀ st d1 n1 c1 d2 n2 c2 f1 f2 st1 st2,
        crear_factura st d1 n1 c1 = (.ok f1, st1) →
        crear_factura st1 d2 n2 c2 = (.ok f2, st2) →
        f2.id = f1.id + 1) ∧
    (∀ st data now cae f st',
        (∀ g ∈ st.facturas, g.id ≤ st.facturas.length) →
        crear_factura st data now cae = (.ok f, st') →
        f.id ∉ st.facturas.map Factura.id ∧
        ∀ g ∈ st'.facturas, g.id ≤ st'.facturas.length) := by
  have hbase : ∀ st data now cae f st', crear_factura st data now cae = (.ok f, st') →
      f.id = st.facturas.length + 1 ∧ st'.facturas = st.facturas ++ [f] := by
    intro st data now cae f st' h
    obtain ⟨-, -, -, hid, -, -, -, -, -, -, -, happ, -⟩ := crear_factura_ok_spec h
    exact ⟨hid, happ⟩
  refine ⟨hbase, ?_, ?_, ?_⟩
  · intro data now cae f st' h
    simpa [initialLedger] using (hbase _ _ _ _ _ _ h).1
  · intro st d1 n1 c1 d2 n2 c2 f1 f2 st1 st2 h1 h2
    obtain ⟨ha1, hb1⟩ := hbase _ _ _ _ _ _ h1
    obtain ⟨ha2, -⟩ := hbase _ _ _ _ _ _ h2
    rw [hb1, List.length_append] at ha2
    simp only [List.length_singleton] at ha2
    omega
  · intro st data now cae f st' hinv h
    obtain ⟨ha, hb⟩ := hbase _ _ _ _ _ _ h
    constructor
    · intro hmem
      simp only [List.mem_map] at hmem
      obtain ⟨g, hg, hgid⟩ := hmem
      have := hinv g hg
      omega
    · intro g hg
      rw [hb] at hg ⊢
      rw [List.length_append]
      simp only [List.mem_append, List.mem_singleton, List.length_singleton] at hg ⊢
      rcases hg with hg | rfl
      · have := hinv g hg
        omega
      · omega

/-- C6 witness: two successful series-A creations from the initial state
return ids 1 and 2. -/
theorem C6_ids_increment_by_one_witness :
    ∃ f1 st1 f2 st2,
      crear_factura initialLedger
          { tipo := "A", puntoVenta := 1, cliente := "c",
            items := some [.good { cantidad := 1, precioUnitario := 1 }] } 0 "11111111111111" =
        (.ok f1, st1) ∧
      crear_factura st1
          { tipo := "A", puntoVenta := 3, cliente := "d",
            items := some [.good { cantidad := 2, precioUnitario := 1 }] } 5 "22222222222222" =
        (.ok f2, st2) ∧
      f1.id = 1 ∧ f2.id = f1.id + 1 := by
  have h1 : isOk (crear_factura initialLedger
      { tipo := "A", puntoVenta := 1, cliente := "c",
        items := some [.good { cantidad := 1, precioUnitario := 1 }] } 0 "11111111111111").1 =
      true :=
    crear_factura_isOk (Or.inl rfl) (by decide) rfl (by decide) rfl
  obtain ⟨f1, hf1⟩ := isOk_iff_exists.mp h1
  have hp1 := crear_factura_pair _ _ _ _ hf1
  have h2 : isOk (crear_factura (crear_factura initialLedger
      { tipo := "A", puntoVenta := 1, cliente := "c",
        items := some [.good { cantidad := 1, precioUnitario := 1 }] } 0 "11111111111111").2
      { tipo := "A", puntoVenta := 3, cliente := "d",
        items := some [.good { cantidad := 2, precioUnitario := 1 }] } 5 "22222222222222").1 =
      true :=
    crear_factura_isOk (Or.inl rfl) (by decide) rfl (by decide) rfl
  obtain ⟨f2, hf2⟩ := isOk_iff_exists.mp h2
  have hp2 := crear_factura_pair _ _ _ _ hf2
  exact ⟨f1, _, f2, _, hp1, hp2,
    C6_ids_increment_by_one.2.1 _ _ _ _ _ hp1,
    C6_ids_increment_by_one.2.2.1 _ _ _ _ _ _ _ _ _ _ _ hp1 hp2⟩

/-- C7: the number generator formats zero-padded 5-digit point-of-sale
dash 8-digit counter and increments only its own series' counter; the
counters start at 1; no creation outcome ever decreases a counter; and
two successful creations of the same series embed consecutive sequence
numbers even with different points of sale. -/
theorem C7_series_counters :
    (∀ (pv : ℤ) (c : Contadores),
      generar_numero_factura "A" pv c =
        some (zfill (toString pv) 5 ++ "-" ++ zfill (toString c.A) 8,
              { A := c.A + 1, B := c.B }) ∧
      generar_numero_factura "B" pv c =
        some (zfill (toString pv) 5 ++ "-" ++ zfill (toString c.B) 8,
              { A := c.A, B := c.B + 1 })) ∧
    initialLedger.contadores = { A := 1, B := 1 } ∧
    (∀ st data now cae r st', crear_factura st data now cae = (r, st') →
      st.contadores.A ≤ st'.contadores.A ∧ st.contadores.B ≤ st'.contadores.B) ∧
    (∀ st d1 n1 c1 d2 n2 c2 f1 f2 st1 st2,
      crear_factura st d1 n1 c1 = (.ok f1, st1) →
      crear_factura st1 d2 n2 c2 = (.ok f2, st2) →
      d1.tipo = d2.tipo →
      ∃ k, f1.numero = zfill (toString d1.puntoVenta) 5 ++ "-" ++ zfill (toString k) 8 ∧
           f2.numero = zfill (toString d2.puntoVenta) 5 ++ "-" ++ zfill (toString (k + 1)) 8) := by
  refine ⟨?_, rfl, ?_, ?_⟩
  · intro pv c
    constructor <;> simp +decide [generar_numero_factura]
  · intro st data now cae r st' h
    rcases r with f | ⟨code, msg⟩
    · obtain ⟨-, -, -, -, -, -, -, -, -, -, -, -, hctr⟩ := crear_factura_ok_spec h
      rcases hctr with ⟨-, -, hc⟩ | ⟨-, -, hc⟩ <;> rw [hc] <;> dsimp only <;> omega
    · rw [crear_factura_err_state h]
      exact ⟨le_refl _, le_refl _⟩
  · intro st d1 n1 c1 d2 n2 c2 f1 f2 st1 st2 h1 h2 htipo
    obtain ⟨-, -, -, -, -, -, -, -, -, -, -, -, hctr1⟩ := crear_factura_ok_spec h1
    obtain ⟨-, -, -, -, -, -, -, -, -, -, -, -, hctr2⟩ := crear_factura_ok_spec h2
    rcases hctr1 with ⟨hA1, hnum1, hc1⟩ | ⟨hB1, hnum1, hc1⟩
    · rcases hctr2 with ⟨-, hnum2, -⟩ | ⟨hB2, -, -⟩
      · refine ⟨st.contadores.A, hnum1, ?_⟩
        rw [hnum2, hc1]
      · rw [← htipo, hA1] at hB2
        simp at hB2
    · rcases hctr2 with ⟨hA2, -, -⟩ | ⟨-, hnum2, -⟩
      · rw [← htipo, hB1] at hA2
        simp at hA2
      · refine ⟨st.contadores.B, hnum1, ?_⟩
        rw [hnum2, hc1]

/-- C7 witness: two series-A creations with points of sale 1 and 3: the
counters never decrease, and the embedded sequence numbers are k and
k + 1 despite the differing points of sale. -/
theorem C7_series_counters_witness :
    ∃ f1 st1 f2 st2,
      crear_factura initialLedger
          { tipo := "A", puntoVenta := 1, cliente := "c",
            items := some [.good { cantidad := 1, precioUnitario := 1 }] } 0 "33333333333333" =
        (.ok f1, st1) ∧
      crear_factura st1
          { tipo := "A", puntoVenta := 3, cliente := "d",
            items := some [.good { cantidad := 2, precioUnitario := 1 }] } 5 "44444444444444" =
        (.ok f2, st2) ∧
      (initialLedger.contadores.A ≤ st1.contadores.A ∧
        initialLedger.contadores.B ≤ st1.contadores.B) ∧
      (∃ k, f1.numero = zfill (toString (1 : ℤ)) 5 ++ "-" ++ zfill (toString k) 8 ∧
            f2.numero = zfill (toString (3 : ℤ)) 5 ++ "-" ++ zfill (toString (k + 1)) 8) := by
  have h1 : isOk (crear_factura initialLedger
      { tipo := "A", puntoVenta := 1, cliente := "c",
        items := some [.good { cantidad := 1, precioUnitario := 1 }] } 0 "33333333333333").1 =
      true :=
    crear_factura_isOk (Or.inl rfl) (by decide) rfl (by decide) rfl
  obtain ⟨f1, hf1⟩ := isOk_iff_exists.mp h1
  have hp1 := crear_factura_pair _ _ _ _ hf1
  have h2 : isOk (crear_factura (crear_factura initialLedger
      { tipo := "A", puntoVenta := 1, cliente := "c",
        items := some [.good { cantidad := 1, precioUnitario := 1 }] } 0 "33333333333333").2
      { tipo := "A", puntoVenta := 3, cliente := "d",
        items := some [.good { cantidad := 2, precioUnitario := 1 }] } 5 "44444444444444").1 =
      true :=
    crear_factura_isOk (Or.inl rfl) (by decide) rfl (by decide) rfl
  obtain ⟨f2, hf2⟩ := isOk_iff_exists.mp h2
  have hp2 := crear_factura_pair _ _ _ _ hf2
  exact ⟨f1, _, f2, _, hp1, hp2,
    C7_series_counters.2.2.1 _ _ _ _ _ _ hp1,
    C7_series_counters.2.2.2 _ _ _ _ _ _ _ _ _ _ _ hp1 hp2 rfl⟩

end SistemaFacturacion

namespace SistemaFacturacion

/-- A stored invoice used to exercise `verificar_cae` on a non-empty
ledger. -/
def caeWitnessFactura : Factura :=
  { id := 1, tipo := "A", numero := "00001-00000001", puntoVenta := 1,
    cae := "20000000000000", fechaEmision := 0, fechaVencimientoCAE := 864000,
    cliente := "c", items := [.good { cantidad := 1, precioUnitario := 1 }],
    subtotal := 1, iva := 21/100, total := 121/100, estado := "Autorizada" }

/-- A one-invoice ledger used to exercise `verificar_cae`. -/
def caeWitnessLedger : Ledger :=
  { facturas := [caeWitnessFactura], contadores := { A := 2, B := 1 } }

/-- C8: `verificar_cae` always returns a validity payload: when no stored
invoice carries the code it reports not-found with `valido = false`;
when the scan finds the first matching invoice, it echoes that invoice
and `valido` holds exactly when the current time is not past its expiry,
with the message chosen accordingly. -/
theorem C8_verificar_cae_total (st : Ledger) (cae : String) (now : ℤ) :
    (st.facturas.find? (fun f => f.cae == cae) = none →
      verificar_cae st cae now =
        { valido := false, factura := none, mensaje := "CAE no encontrado" }) ∧
    (∀ f, st.facturas.find? (fun f => f.cae == cae) = some f →
      f ∈ st.facturas ∧ f.cae = cae ∧
      (verificar_cae st cae now).factura = some f ∧
      ((verificar_cae st cae now).valido = true ↔ ¬ f.fechaVencimientoCAE < now) ∧
      (verificar_cae st cae now).mensaje =
        if f.fechaVencimientoCAE < now then "CAE vencido" else "CAE válido") := by
  constructor
  · intro h
    unfold verificar_cae
    rw [h]
  · intro f hf
    refine ⟨List.mem_of_find?_eq_some hf, ?_, ?_, ?_, ?_⟩
    · have hp := List.find?_some hf
      simpa using hp
    · unfold verificar_cae
      rw [hf]
    · unfold verificar_cae
      rw [hf]
      simp
    · unfold verificar_cae
      rw [hf]
      by_cases hc : f.fechaVencimientoCAE < now <;> simp [hc]

/-- C8 witness: on the empty initial ledger any code reports not-found;
on a one-invoice ledger the stored code is found, echoed, and valid at
time 0 (before its expiry). -/
theorem C8_verificar_cae_total_witness :
    (initialLedger.facturas.find? (fun f => f.cae == "99999999999999") = none ∧
      verificar_cae initialLedger "99999999999999" 0 =
        { valido := false, factura := none, mensaje := "CAE no encontrado" }) ∧
    (caeWitnessLedger.facturas.find? (fun f => f.cae == "20000000000000") =
        some caeWitnessFactura ∧
      caeWitnessFactura ∈ caeWitnessLedger.facturas ∧
      caeWitnessFactura.cae = "20000000000000" ∧
      (verificar_cae caeWitnessLedger "20000000000000" 0).factura = some caeWitnessFactura ∧
      ((verificar_cae caeWitnessLedger "20000000000000" 0).valido = true ↔
        ¬ caeWitnessFactura.fechaVencimientoCAE < 0) ∧
      (verificar_cae caeWitnessLedger "20000000000000" 0).mensaje =
        if caeWitnessFactura.fechaVencimientoCAE < 0 then "CAE vencido" else "CAE válido") := by
  have hnone : initialLedger.facturas.find? (fun f => f.cae == "99999999999999") = none := rfl
  have hsome : caeWitnessLedger.facturas.find? (fun f => f.cae == "20000000000000") =
      some caeWitnessFactura := rfl
  exact ⟨⟨hnone, (C8_verificar_cae_total initialLedger "99999999999999" 0).1 hnone⟩,
    ⟨hsome, (C8_verificar_cae_total caeWitnessLedger "20000000000000" 0).2
      caeWitnessFactura hsome⟩⟩

end SistemaFacturacion

namespace SistemaFacturacion

/-- Running a sequence of all-successful creations appends one invoice
per request, whose series matches the request's. -/
lemma runRequests_stats :
    ∀ (reqs : List (RequestData × ℤ × String)) (st : Ledger), allOk st reqs = true →
      (runRequests st reqs).facturas.length = st.facturas.length + reqs.length ∧
      ((runRequests st reqs).facturas.filter (fun f => f.tipo == "A")).length =
        (st.facturas.filter (fun f => f.tipo == "A")).length +
        (reqs.filter (fun r => r.1.tipo == "A")).length ∧
      ((runRequests st reqs).facturas.filter (fun f => f.tipo == "B")).length =
        (st.facturas.filter (fun f => f.tipo == "B")).length +
        (reqs.filter (fun r => r.1.tipo == "B")).length := by
  intro reqs
  induction reqs with
  | nil =>
    intro st h
    simp [runRequests]
  | cons hd rest ih =>
    obtain ⟨d, now, cae⟩ := hd
    intro st h
    rw [allOk, Bool.and_eq_true] at h
    obtain ⟨h1, h2⟩ := h
    obtain ⟨f, hf⟩ := isOk_iff_exists.mp h1
    have hp := crear_factura_pair _ _ _ _ hf
    obtain ⟨hAB, -, -, -, htipo, -, -, -, -, -, -, happ, -⟩ := crear_factura_ok_spec hp
    have hrun : runRequests st ((d, now, cae) :: rest) =
        runRequests (crear_factura st d now cae).2 rest := rfl
    obtain ⟨ih1, ih2, ih3⟩ := ih (crear_factura st d now cae).2 h2
    rw [happ] at ih1 ih2 ih3
    rw [hrun, ih1, ih2, ih3]
    rcases hAB with hT | hT <;>
      simp [List.filter_append, List.filter_cons, List.length_append, htipo, hT] <;>
      omega

/-- C9: starting from the empty ledger, after any all-successful request
sequence the statistics report the total invoice count, the number of
series-A and series-B requests, and the 2-decimal rounding of the sum of
all stored totals. -/
theorem C9_statistics (reqs : List (RequestData × ℤ × String))
    (h : allOk initialLedger reqs = true) :
    obtener_estadisticas (runRequests initialLedger reqs) =
      { totalFacturas := reqs.length
        facturasA := (reqs.filter (fun r => r.1.tipo == "A")).length
        facturasB := (reqs.filter (fun r => r.1.tipo == "B")).length
        totalFacturado :=
          round2 (((runRequests initialLedger reqs).facturas.map (fun f => f.total)).sum) } := by
  obtain ⟨h1, h2, h3⟩ := runRequests_stats reqs initialLedger h
  rw [show initialLedger.facturas = [] from rfl] at h1 h2 h3
  simp only [List.filter_nil, List.length_nil, Nat.zero_add] at h1 h2 h3
  simp [obtener_estadisticas, h1, h2, h3]

/-- C9 witness: one series-A and one series-B successful creation give
totals 2, 1, 1. -/
theorem C9_statistics_witness :
    allOk initialLedger
        [({ tipo := "A", puntoVenta := 1, cliente := "c",
            items := some [.good { cantidad := 1, precioUnitario := 1 }] }, 0, "55555555555555"),
         ({ tipo := "B", puntoVenta := 2, cliente := "d",
            items := some [.good { cantidad := 1, precioUnitario := 2 }] }, 1, "66666666666666")] =
      true ∧
    obtener_estadisticas (runRequests initialLedger
        [({ tipo := "A", puntoVenta := 1, cliente := "c",
            items := some [.good { cantidad := 1, precioUnitario := 1 }] }, 0, "55555555555555"),
         ({ tipo := "B", puntoVenta := 2, cliente := "d",
            items := some [.good { cantidad := 1, precioUnitario := 2 }] }, 1, "66666666666666")]) =
      { totalFacturas := 2, facturasA := 1, facturasB := 1,
        totalFacturado :=
          round2 (((runRequests initialLedger
              [({ tipo := "A", puntoVenta := 1, cliente := "c",
                  items := some [.good { cantidad := 1, precioUnitario := 1 }] }, 0,
                 "55555555555555"),
               ({ tipo := "B", puntoVenta := 2, cliente := "d",
                  items := some [.good { cantidad := 1, precioUnitario := 2 }] }, 1,
                 "66666666666666")]).facturas.map (fun f => f.total)).sum) } := by
  have k1 : isOk (crear_factura initialLedger
      { tipo := "A", puntoVenta := 1, cliente := "c",
        items := some [.good { cantidad := 1, precioUnitario := 1 }] } 0 "55555555555555").1 =
      true :=
    crear_factura_isOk (Or.inl rfl) (by decide) rfl (by decide) rfl
  have k2 : isOk (crear_factura (crear_factura initialLedger
      { tipo := "A", puntoVenta := 1, cliente := "c",
        items := some [.good { cantidad := 1, precioUnitario := 1 }] } 0 "55555555555555").2
      { tipo := "B", puntoVenta := 2, cliente := "d",
        items := some [.good { cantidad := 1, precioUnitario := 2 }] } 1 "66666666666666").1 =
      true :=
    crear_factura_isOk (Or.inr rfl) (by decide) rfl (by decide) rfl
  have hall : allOk initialLedger
      [({ tipo := "A", puntoVenta := 1, cliente := "c",
          items := some [.good { cantidad := 1, precioUnitario := 1 }] }, 0, "55555555555555"),
       ({ tipo := "B", puntoVenta := 2, cliente := "d",
          items := some [.good { cantidad := 1, precioUnitario := 2 }] }, 1, "66666666666666")] =
      true := by
    rw [allOk, allOk, allOk, k1, k2]
    rfl
  refine ⟨hall, ?_⟩
  rw [C9_statistics _ hall]
  rfl

/-- C10 (implicit claim): item contents are never validated — any request
with a valid type and point of sale and a non-empty, well-formed item
list succeeds with 201, and the computed amounts (including negative or
zero ones) flow unchecked into the stored subtotal, tax and total. -/
theorem C10_items_unvalidated (st : Ledger) (data : RequestData) (now : ℤ) (cae : String)
    (l : List ItemVal) (its : List Item)
    (hAB : data.tipo = "A" ∨ data.tipo = "B")
    (hpv : data.puntoVenta ∈ puntos_venta)
    (hitems : data.items = some l)
    (hne : l ≠ [])
    (hext : extractItems l = some its) :
    ∃ f st', crear_factura st data now cae = (.ok f, st') ∧
      statusOf (crear_factura st data now cae).1 = 201 ∧
      f.subtotal = (calcular_totales its data.tipo).subtotal ∧
      f.iva = (calcular_totales its data.tipo).iva ∧
      f.total = (calcular_totales its data.tipo).total := by
  have hok : isOk (crear_factura st data now cae).1 = true :=
    crear_factura_isOk hAB hpv hitems hne hext
  obtain ⟨f, hf⟩ := isOk_iff_exists.mp hok
  have hp := crear_factura_pair _ _ _ _ hf
  obtain ⟨-, -, ⟨l', its', hitems', -, hext', -, hsub, hiva, htot⟩,
    -, -, -, -, -, -, -, -, -, -⟩ := crear_factura_ok_spec hp
  rw [hitems] at hitems'
  injection hitems' with he
  subst he
  rw [hext] at hext'
  injection hext' with he2
  subst he2
  refine ⟨f, _, hp, ?_, hsub, hiva, htot⟩
  rw [hf]
  rfl

/-- C10 witness: a request whose single item has the negative unit price
−100 is accepted with 201 and stores the negative total −121. -/
theorem C10_items_unvalidated_witness :
    (∃ f st', crear_factura initialLedger
        { tipo := "A", puntoVenta := 1, cliente := "c",
          items := some [.good { cantidad := 1, precioUnitario := -100 }] } 0 "77777777777777" =
        (.ok f, st') ∧
      statusOf (crear_factura initialLedger
        { tipo := "A", puntoVenta := 1, cliente := "c",
          items := some [.good { cantidad := 1, precioUnitario := -100 }] } 0
        "77777777777777").1 = 201 ∧
      f.subtotal = (calcular_totales [{ cantidad := 1, precioUnitario := -100 }] "A").subtotal ∧
      f.iva = (calcular_totales [{ cantidad := 1, precioUnitario := -100 }] "A").iva ∧
      f.total = (calcular_totales [{ cantidad := 1, precioUnitario := -100 }] "A").total) ∧
    (calcular_totales [{ cantidad := 1, precioUnitario := -100 }] "A").total = -121 ∧
    (calcular_totales [{ cantidad := 1, precioUnitario := -100 }] "A").total < 0 := by
  refine ⟨C10_items_unvalidated initialLedger _ 0 "77777777777777" _ _
      (Or.inl rfl) (by decide) rfl (by decide) rfl, ?_, ?_⟩ <;>
    norm_num [calcular_totales, itemsSubtotal, round2, rndHalfEven]

end SistemaFacturacion
